import Mathlib

/-!
# Rakk Dasig X report-descriptor fixup

A shallow embedding of `intercept_dasig_x_report` from `src/hid-rakk-dasig-x.c`
together with the captured descriptors of `tests/test_hid_rakk_dasig_x.c`.

The C function receives two pointers, `rdesc` and `rsize`.  The objects behind
them are fields of a `Machine`; the pointer `rdesc` itself is an address that
the function hands back.  Indexing into the descriptor object is checked: a
load or store outside the object stops the call with a `Fault`, and the machine
reached at that point stays observable.  Bytes and the `unsigned int` length
are natural numbers; the function only compares them with constants and stores
the constant `0x05`, so no arithmetic can wrap.
-/

set_option maxRecDepth 8000

namespace RakkDasigX

/-! ## Constants of the driver -/

def USB_VENDOR_ID_RAKK : Nat := 0x248A
def USB_DEVICE_ID_RAKK_DASIG_X : Nat := 0xFB01
def USB_DEVICE_ID_RAKK_DASIG_X_DONGLE : Nat := 0xFA02
def USB_DEVICE_ID_RAKK_DASIG_X_BLUETOOTH : Nat := 0x8266

def RAKK_DASIG_X_RDESC_ORIG_SIZE : Nat := 193
def RAKK_DASIG_X_DONGLE_RDESC_ORIG_SIZE : Nat := 150
def RAKK_DASIG_X_BLUETOOTH_RDESC_ORIG_SIZE : Nat := 89
def RAKK_DASIG_X_USAGE_MAX_OFFSET : Nat := 17
def RAKK_DASIG_X_USAGE_MAX_ORIG_VALUE : Nat := 0x03
def RAKK_DASIG_X_USAGE_MAX_FIXED_VALUE : Nat := 0x05

/-! ## Data model -/

/-- The device handle, with the two fields the unit tests declare for it. -/
structure hid_device where
  vendor : Nat
  product : Nat
deriving DecidableEq, Repr

/-- An address of a descriptor buffer (the value of a `__u8 *`). -/
abbrev Ptr := Nat

/-- One access to the descriptor object, recorded in program order. -/
inductive MemOp where
  | load (off : Nat)
  | store (off : Nat) (val : Nat)
deriving DecidableEq, Repr

/-- The only way a call can go wrong: an access outside the descriptor object. -/
inductive Fault where
  | out_of_bounds (off : Nat)
deriving DecidableEq, Repr

/-- Everything a call can observe or change.
`rdesc` is the object behind the `rdesc` pointer (its real extent, byte by byte),
`rsize` the `unsigned int` behind the `rsize` pointer, `log` the kernel log as
lines attributed to a device, and `trace` the accesses made to `rdesc` so far. -/
structure Machine where
  rdesc : List Nat
  rsize : Nat
  log : List (hid_device × String)
  trace : List MemOp
deriving DecidableEq, Repr

/-- Checked read of `rdesc[off]`. -/
def load_rdesc (off : Nat) (m : Machine) : Except Fault Nat × Machine :=
  match m.rdesc[off]? with
  | some b => (Except.ok b, { m with trace := m.trace ++ [MemOp.load off] })
  | none => (Except.error (Fault.out_of_bounds off),
      { m with trace := m.trace ++ [MemOp.load off] })

/-- Checked write `rdesc[off] = val`. -/
def store_rdesc (off val : Nat) (m : Machine) : Except Fault Unit × Machine :=
  if off < m.rdesc.length then
    (Except.ok (), { m with rdesc := m.rdesc.set off val,
                            trace := m.trace ++ [MemOp.store off val] })
  else
    (Except.error (Fault.out_of_bounds off),
      { m with trace := m.trace ++ [MemOp.store off val] })

/-- Modelled from the spec: `hid_info` is the kernel logging macro of
`linux/hid.h`, which is not part of the sources; the spec describes it as one
informational diagnostic line attributed to the device, with no other effect. -/
def hid_info (hdev : hid_device) (fmt : String) (m : Machine) : Machine :=
  { m with log := m.log ++ [(hdev, fmt)] }

/-- The text of the single diagnostic the driver can emit. -/
def intercept_message : String :=
  "Intercepting Rakk Dasig X report descriptor (buttons 3 -> 5)...\n"

/-- The fixup of `src/hid-rakk-dasig-x.c`.  The length test comes first and the
byte at offset 17 is loaded only when it succeeds (`&&` short-circuits); on a
match the diagnostic is logged, then the byte is overwritten; every path ends
in `return rdesc`. -/
def intercept_dasig_x_report (hdev : hid_device) (rdesc : Ptr) (m : Machine) :
    Except Fault Ptr × Machine :=
  if m.rsize = RAKK_DASIG_X_RDESC_ORIG_SIZE ∨
      m.rsize = RAKK_DASIG_X_DONGLE_RDESC_ORIG_SIZE ∨
      m.rsize = RAKK_DASIG_X_BLUETOOTH_RDESC_ORIG_SIZE then
    match load_rdesc RAKK_DASIG_X_USAGE_MAX_OFFSET m with
    | (Except.error e, m1) => (Except.error e, m1)
    | (Except.ok b, m1) =>
      if b = RAKK_DASIG_X_USAGE_MAX_ORIG_VALUE then
        match store_rdesc RAKK_DASIG_X_USAGE_MAX_OFFSET RAKK_DASIG_X_USAGE_MAX_FIXED_VALUE
            (hid_info hdev
              "Intercepting Rakk Dasig X report descriptor (buttons 3 -> 5)...\n" m1) with
        | (Except.error e, m2) => (Except.error e, m2)
        | (Except.ok (), m2) => (Except.ok rdesc, m2)
      else
        (Except.ok rdesc, m1)
  else
    (Except.ok rdesc, m)

/-- Two calls in sequence on the same device: the second receives the pointer
the first returned and runs on the machine the first left; a fault in the first
call ends the sequence. -/
def intercept_twice (hdev : hid_device) (rdesc : Ptr) (m : Machine) :
    Except Fault Ptr × Machine :=
  match intercept_dasig_x_report hdev rdesc m with
  | (Except.error e, m1) => (Except.error e, m1)
  | (Except.ok p, m1) => intercept_dasig_x_report hdev p m1

/-! ## Captured descriptors (unit tests) -/

/-- Report descriptor captured from the mouse on the wired USB transport (193 bytes). -/
def dasig_x_original_rdesc : List Nat :=
  [0x05, 0x01, 0x09, 0x02, 0xa1, 0x01, 0x85, 0x01, 0x09, 0x01, 0xa1, 0x00,
   0x05, 0x09, 0x19, 0x01, 0x29, 0x03, 0x15, 0x00, 0x25, 0x01, 0x75, 0x01,
   0x95, 0x05, 0x81, 0x02, 0x75, 0x03, 0x95, 0x01, 0x81, 0x01, 0x05, 0x01,
   0x09, 0x30, 0x09, 0x31, 0x16, 0x01, 0x80, 0x26, 0xff, 0x7f, 0x75, 0x10,
   0x95, 0x02, 0x81, 0x06, 0x09, 0x38, 0x15, 0x81, 0x25, 0x7f, 0x75, 0x08,
   0x95, 0x01, 0x81, 0x06, 0xc0, 0xc0, 0x05, 0x0c, 0x09, 0x01, 0xa1, 0x01,
   0x85, 0x02, 0x75, 0x10, 0x95, 0x01, 0x15, 0x01, 0x26, 0x8c, 0x02, 0x19,
   0x01, 0x2a, 0x8c, 0x02, 0x81, 0x00, 0xc0, 0x05, 0x01, 0x09, 0x80, 0xa1,
   0x01, 0x85, 0x03, 0x09, 0x82, 0x09, 0x81, 0x09, 0x83, 0x15, 0x00, 0x25,
   0x01, 0x19, 0x01, 0x29, 0x03, 0x75, 0x01, 0x95, 0x03, 0x81, 0x02, 0x95,
   0x05, 0x81, 0x01, 0xc0, 0x05, 0x01, 0x09, 0x00, 0xa1, 0x01, 0x85, 0x05,
   0x15, 0x00, 0x26, 0xff, 0x00, 0x95, 0x20, 0x75, 0x08, 0x09, 0x01, 0x81,
   0x02, 0x09, 0x02, 0x91, 0x02, 0xc0, 0x05, 0x01, 0x09, 0x06, 0xa1, 0x01,
   0x85, 0x06, 0x05, 0x07, 0x19, 0xe0, 0x29, 0xe7, 0x15, 0x00, 0x25, 0x01,
   0x75, 0x01, 0x95, 0x08, 0x81, 0x02, 0x95, 0x06, 0x75, 0x08, 0x15, 0x00,
   0x26, 0xff, 0x00, 0x05, 0x07, 0x19, 0x00, 0x2a, 0xff, 0x00, 0x81, 0x00,
   0xc0]

/-- Report descriptor captured through the wireless dongle (150 bytes). -/
def dasig_x_dongle_rdesc : List Nat :=
  [0x05, 0x01, 0x09, 0x02, 0xa1, 0x01, 0x85, 0x01, 0x09, 0x01, 0xa1, 0x00,
   0x05, 0x09, 0x19, 0x01, 0x29, 0x03, 0x15, 0x00, 0x25, 0x01, 0x75, 0x01,
   0x95, 0x05, 0x81, 0x02, 0x75, 0x03, 0x95, 0x01, 0x81, 0x01, 0x05, 0x01,
   0x09, 0x30, 0x09, 0x31, 0x16, 0x01, 0x80, 0x26, 0xff, 0x7f, 0x75, 0x10,
   0x95, 0x02, 0x81, 0x06, 0x09, 0x38, 0x15, 0x81, 0x25, 0x7f, 0x75, 0x08,
   0x95, 0x01, 0x81, 0x06, 0xc0, 0xc0, 0x05, 0x0c, 0x09, 0x01, 0xa1, 0x01,
   0x85, 0x02, 0x75, 0x10, 0x95, 0x01, 0x15, 0x01, 0x26, 0x8c, 0x02, 0x19,
   0x01, 0x2a, 0x8c, 0x02, 0x81, 0x00, 0xc0, 0x05, 0x01, 0x09, 0x80, 0xa1,
   0x01, 0x85, 0x03, 0x09, 0x82, 0x09, 0x81, 0x09, 0x83, 0x15, 0x00, 0x25,
   0x01, 0x19, 0x01, 0x29, 0x03, 0x75, 0x01, 0x95, 0x03, 0x81, 0x02, 0x95,
   0x05, 0x81, 0x01, 0xc0, 0x05, 0x01, 0x09, 0x00, 0xa1, 0x01, 0x85, 0x05,
   0x15, 0x00, 0x26, 0xff, 0x00, 0x95, 0x20, 0x75, 0x08, 0x09, 0x01, 0x81,
   0x02, 0x09, 0x02, 0x91, 0x02, 0xc0]

/-- Report descriptor captured over Bluetooth (89 bytes). -/
def dasig_x_bluetooth_rdesc : List Nat :=
  [0x05, 0x01, 0x09, 0x02, 0xa1, 0x01, 0x85, 0x03, 0x09, 0x01, 0xa1, 0x00,
   0x05, 0x09, 0x19, 0x01, 0x29, 0x03, 0x15, 0x00, 0x25, 0x01, 0x75, 0x01,
   0x95, 0x05, 0x81, 0x02, 0x75, 0x03, 0x95, 0x01, 0x81, 0x01, 0x05, 0x01,
   0x09, 0x30, 0x09, 0x31, 0x16, 0x01, 0x80, 0x26, 0xff, 0x7f, 0x75, 0x10,
   0x95, 0x02, 0x81, 0x06, 0x09, 0x38, 0x15, 0x81, 0x25, 0x7f, 0x75, 0x08,
   0x95, 0x01, 0x81, 0x06, 0xc0, 0xc0, 0x06, 0x01, 0xff, 0x09, 0x01, 0xa1,
   0x01, 0x85, 0x05, 0x09, 0x05, 0x15, 0x00, 0x26, 0xff, 0x00, 0x75, 0x08,
   0x95, 0x04, 0xb1, 0x02, 0xc0]

/-- The 256-byte buffer of `test_no_fixup_larger_descriptor`: zero-filled, then
the wired descriptor copied over its first 193 bytes. -/
def larger_rdesc : List Nat :=
  dasig_x_original_rdesc ++ List.replicate 63 0

/-! ## The four paths of the fixup -/

/-- The length test of the fixup. -/
def known_size (n : Nat) : Prop :=
  n = RAKK_DASIG_X_RDESC_ORIG_SIZE ∨ n = RAKK_DASIG_X_DONGLE_RDESC_ORIG_SIZE ∨
    n = RAKK_DASIG_X_BLUETOOTH_RDESC_ORIG_SIZE

instance (n : Nat) : Decidable (known_size n) := by
  unfold known_size; infer_instance

/-- The offset a recorded access refers to. -/
def MemOp.off : MemOp → Nat
  | MemOp.load off => off
  | MemOp.store off _ => off

/-! ## Device table and driver registration -/

/-- Modelled from the spec: the bus code of a USB device, from the kernel header
`linux/input.h`, which is not part of the sources. -/
def BUS_USB : Nat := 0x03

/-- Modelled from the spec: the bus code of a Bluetooth device, from the kernel
header `linux/input.h`, which is not part of the sources. -/
def BUS_BLUETOOTH : Nat := 0x05

/-- An entry of a device table, with the fields the driver's table sets. -/
structure hid_device_id where
  bus : Nat
  vendor : Nat
  product : Nat
deriving DecidableEq, Repr

/-- Modelled from the spec: the macro `HID_USB_DEVICE` of `linux/hid.h`, which is
not part of the sources; it names a vendor/product pair reached over USB. -/
def HID_USB_DEVICE (ven prod : Nat) : hid_device_id :=
  { bus := BUS_USB, vendor := ven, product := prod }

/-- Modelled from the spec: the macro `HID_BLUETOOTH_DEVICE` of `linux/hid.h`,
which is not part of the sources; it names a vendor/product pair reached over
Bluetooth. -/
def HID_BLUETOOTH_DEVICE (ven prod : Nat) : hid_device_id :=
  { bus := BUS_BLUETOOTH, vendor := ven, product := prod }

/-- The entry written `{}` in C: every field zero. -/
def empty_device_id : hid_device_id :=
  { bus := 0, vendor := 0, product := 0 }

/-- The device table of `src/hid-rakk-dasig-x.c`, entry by entry. -/
def rakk_devices : List hid_device_id :=
  [HID_USB_DEVICE USB_VENDOR_ID_RAKK USB_DEVICE_ID_RAKK_DASIG_X,
   HID_USB_DEVICE USB_VENDOR_ID_RAKK USB_DEVICE_ID_RAKK_DASIG_X_DONGLE,
   HID_BLUETOOTH_DEVICE USB_VENDOR_ID_RAKK USB_DEVICE_ID_RAKK_DASIG_X_BLUETOOTH,
   empty_device_id]

/-- The identities a table binds: its entries up to the first empty one, which is
where the host stops reading the table. -/
def bound_identities (table : List hid_device_id) : List hid_device_id :=
  table.takeWhile (fun e => decide (e ≠ empty_device_id))

/-- The fields of `struct hid_driver` that the driver fills in. -/
structure hid_driver where
  name : String
  id_table : List hid_device_id
  report_fixup : hid_device → Ptr → Machine → Except Fault Ptr × Machine

/-- The driver registration of `src/hid-rakk-dasig-x.c`. -/
def dasig_x_driver : hid_driver :=
  { name := "rakk-dasig-x"
    id_table := rakk_devices
    report_fixup := intercept_dasig_x_report }

/-! ## The copy in the unit tests -/

namespace Test

def RAKK_DASIG_X_RDESC_ORIG_SIZE : Nat := 193
def RAKK_DASIG_X_DONGLE_RDESC_ORIG_SIZE : Nat := 150
def RAKK_DASIG_X_BLUETOOTH_RDESC_ORIG_SIZE : Nat := 89
def RAKK_DASIG_X_USAGE_MAX_OFFSET : Nat := 17
def RAKK_DASIG_X_USAGE_MAX_ORIG_VALUE : Nat := 0x03
def RAKK_DASIG_X_USAGE_MAX_FIXED_VALUE : Nat := 0x05

/-- The `hid_info` of the unit tests, `do { (void)(hdev); } while (0)`: it
evaluates the handle and emits nothing. -/
def hid_info (_hdev : hid_device) (_fmt : String) (m : Machine) : Machine :=
  m

/-- The text of `intercept_dasig_x_report` in `tests/test_hid_rakk_dasig_x.c`, over
the constants of that file.  `hid_info` is a macro there, so the function is
written once with the logging routine `info` left open. -/
def intercept_dasig_x_report_with (info : hid_device → String → Machine → Machine)
    (hdev : hid_device) (rdesc : Ptr) (m : Machine) : Except Fault Ptr × Machine :=
  if m.rsize = RAKK_DASIG_X_RDESC_ORIG_SIZE ∨
      m.rsize = RAKK_DASIG_X_DONGLE_RDESC_ORIG_SIZE ∨
      m.rsize = RAKK_DASIG_X_BLUETOOTH_RDESC_ORIG_SIZE then
    match load_rdesc RAKK_DASIG_X_USAGE_MAX_OFFSET m with
    | (Except.error e, m1) => (Except.error e, m1)
    | (Except.ok b, m1) =>
      if b = RAKK_DASIG_X_USAGE_MAX_ORIG_VALUE then
        match store_rdesc RAKK_DASIG_X_USAGE_MAX_OFFSET RAKK_DASIG_X_USAGE_MAX_FIXED_VALUE
            (info hdev
              "Intercepting Rakk Dasig X report descriptor (buttons 3 -> 5)...\n" m1) with
        | (Except.error e, m2) => (Except.error e, m2)
        | (Except.ok (), m2) => (Except.ok rdesc, m2)
      else
        (Except.ok rdesc, m1)
  else
    (Except.ok rdesc, m)

/-- The function the unit tests compile and call: the text above with the mock
`hid_info` of the test file. -/
def intercept_dasig_x_report (hdev : hid_device) (rdesc : Ptr) (m : Machine) :
    Except Fault Ptr × Machine :=
  intercept_dasig_x_report_with hid_info hdev rdesc m

end Test

theorem known_size_iff (n : Nat) : known_size n ↔ n = 193 ∨ n = 150 ∨ n = 89 :=
  Iff.rfl

theorem intercept_size_mismatch (hdev : hid_device) (p : Ptr) (m : Machine)
    (h : ¬ known_size m.rsize) :
    intercept_dasig_x_report hdev p m = (Except.ok p, m) := by
  unfold known_size at h
  simp [intercept_dasig_x_report, h]

theorem intercept_fault (hdev : hid_device) (p : Ptr) (m : Machine)
    (h : known_size m.rsize) (hb : m.rdesc[17]? = none) :
    intercept_dasig_x_report hdev p m =
      (Except.error (Fault.out_of_bounds 17),
        { m with trace := m.trace ++ [MemOp.load 17] }) := by
  unfold known_size at h
  simp [intercept_dasig_x_report, h, load_rdesc, RAKK_DASIG_X_USAGE_MAX_OFFSET, hb]

theorem intercept_other_byte (hdev : hid_device) (p : Ptr) (m : Machine) (b : Nat)
    (h : known_size m.rsize) (hb : m.rdesc[17]? = some b) (hne : b ≠ 3) :
    intercept_dasig_x_report hdev p m =
      (Except.ok p, { m with trace := m.trace ++ [MemOp.load 17] }) := by
  unfold known_size at h
  simp [intercept_dasig_x_report, h, load_rdesc, RAKK_DASIG_X_USAGE_MAX_OFFSET, hb,
    RAKK_DASIG_X_USAGE_MAX_ORIG_VALUE, hne]

theorem intercept_patch (hdev : hid_device) (p : Ptr) (m : Machine)
    (h : known_size m.rsize) (hb : m.rdesc[17]? = some 3) :
    intercept_dasig_x_report hdev p m =
      (Except.ok p,
        { rdesc := m.rdesc.set 17 5
          rsize := m.rsize
          log := m.log ++ [(hdev, intercept_message)]
          trace := m.trace ++ [MemOp.load 17, MemOp.store 17 5] }) := by
  have hlen : 17 < m.rdesc.length := by
    rcases List.getElem?_eq_some_iff.mp hb with ⟨hlt, _⟩
    exact hlt
  unfold known_size at h
  simp [intercept_dasig_x_report, h, load_rdesc, RAKK_DASIG_X_USAGE_MAX_OFFSET, hb,
    RAKK_DASIG_X_USAGE_MAX_ORIG_VALUE, store_rdesc, hid_info, hlen,
    RAKK_DASIG_X_USAGE_MAX_FIXED_VALUE, intercept_message]

/-- Every call takes exactly one of the four paths. -/
theorem intercept_cases (hdev : hid_device) (p : Ptr) (m : Machine) :
    (¬ known_size m.rsize ∧ intercept_dasig_x_report hdev p m = (Except.ok p, m)) ∨
    (known_size m.rsize ∧ m.rdesc[17]? = none ∧
      intercept_dasig_x_report hdev p m =
        (Except.error (Fault.out_of_bounds 17),
          { m with trace := m.trace ++ [MemOp.load 17] })) ∨
    (known_size m.rsize ∧ (∃ b, m.rdesc[17]? = some b ∧ b ≠ 3) ∧
      intercept_dasig_x_report hdev p m =
        (Except.ok p, { m with trace := m.trace ++ [MemOp.load 17] })) ∨
    (known_size m.rsize ∧ m.rdesc[17]? = some 3 ∧
      intercept_dasig_x_report hdev p m =
        (Except.ok p,
          { rdesc := m.rdesc.set 17 5
            rsize := m.rsize
            log := m.log ++ [(hdev, intercept_message)]
            trace := m.trace ++ [MemOp.load 17, MemOp.store 17 5] })) := by
  by_cases h : known_size m.rsize
  · cases hb : m.rdesc[17]? with
    | none => exact Or.inr (Or.inl ⟨h, rfl, intercept_fault hdev p m h hb⟩)
    | some b =>
      by_cases h3 : b = 3
      · subst h3
        exact Or.inr (Or.inr (Or.inr ⟨h, rfl, intercept_patch hdev p m h hb⟩))
      · exact Or.inr (Or.inr (Or.inl
          ⟨h, ⟨b, rfl, h3⟩, intercept_other_byte hdev p m b h hb h3⟩))
  · exact Or.inl ⟨h, intercept_size_mismatch hdev p m h⟩

/-- Reading a list after `set` at another index. -/
theorem getElem?_set_other (l : List Nat) (i v : Nat) (h : i ≠ 17) :
    (l.set 17 v)[i]? = l[i]? := by
  rw [List.getElem?_set_ne]
  exact fun h17 => h h17.symm

/-- Reading a list after `set` at the same, valid index. -/
theorem getElem?_set_same (l : List Nat) (v : Nat) (h : 17 < l.length) :
    (l.set 17 v)[17]? = some v := by
  simp [List.getElem?_set, h]

/-- With the mock `hid_info` the copy in the unit tests does what the driver's
function does, except that the log stays as it was. -/
theorem test_copy_eq (hdev : hid_device) (p : Ptr) (m : Machine) :
    Test.intercept_dasig_x_report hdev p m =
      ((intercept_dasig_x_report hdev p m).1,
        { (intercept_dasig_x_report hdev p m).2 with log := m.log }) := by
  rcases intercept_cases hdev p m with ⟨hk, hf⟩ | ⟨hk, hb, hf⟩ | ⟨hk, ⟨b, hb, hne⟩, hf⟩ |
      ⟨hk, hb, hf⟩
  · rw [hf]
    unfold known_size at hk
    simp [Test.intercept_dasig_x_report, Test.intercept_dasig_x_report_with,
      Test.RAKK_DASIG_X_RDESC_ORIG_SIZE, Test.RAKK_DASIG_X_DONGLE_RDESC_ORIG_SIZE,
      Test.RAKK_DASIG_X_BLUETOOTH_RDESC_ORIG_SIZE, RAKK_DASIG_X_RDESC_ORIG_SIZE,
      RAKK_DASIG_X_DONGLE_RDESC_ORIG_SIZE, RAKK_DASIG_X_BLUETOOTH_RDESC_ORIG_SIZE] at hk ⊢
    simp [hk]
  · rw [hf]
    rw [known_size_iff] at hk
    simp [Test.intercept_dasig_x_report, Test.intercept_dasig_x_report_with,
      Test.RAKK_DASIG_X_RDESC_ORIG_SIZE, Test.RAKK_DASIG_X_DONGLE_RDESC_ORIG_SIZE,
      Test.RAKK_DASIG_X_BLUETOOTH_RDESC_ORIG_SIZE, Test.RAKK_DASIG_X_USAGE_MAX_OFFSET,
      load_rdesc, hk, hb]
  · rw [hf]
    rw [known_size_iff] at hk
    simp [Test.intercept_dasig_x_report, Test.intercept_dasig_x_report_with,
      Test.RAKK_DASIG_X_RDESC_ORIG_SIZE, Test.RAKK_DASIG_X_DONGLE_RDESC_ORIG_SIZE,
      Test.RAKK_DASIG_X_BLUETOOTH_RDESC_ORIG_SIZE, Test.RAKK_DASIG_X_USAGE_MAX_OFFSET,
      Test.RAKK_DASIG_X_USAGE_MAX_ORIG_VALUE, load_rdesc, hk, hb, hne]
  · have h17 : 17 < m.rdesc.length := (List.getElem?_eq_some_iff.mp hb).1
    rw [hf]
    rw [known_size_iff] at hk
    simp [Test.intercept_dasig_x_report, Test.intercept_dasig_x_report_with,
      Test.RAKK_DASIG_X_RDESC_ORIG_SIZE, Test.RAKK_DASIG_X_DONGLE_RDESC_ORIG_SIZE,
      Test.RAKK_DASIG_X_BLUETOOTH_RDESC_ORIG_SIZE, Test.RAKK_DASIG_X_USAGE_MAX_OFFSET,
      Test.RAKK_DASIG_X_USAGE_MAX_ORIG_VALUE, Test.RAKK_DASIG_X_USAGE_MAX_FIXED_VALUE,
      Test.hid_info, load_rdesc, store_rdesc, hk, hb, h17]

/-! ## Contract of the fixup -/

/-- C1: when the length is 193, 150 or 89, the descriptor object has exactly that
many bytes and byte 17 is 0x03, the call returns the pointer it was given, byte 17
is 0x05 afterwards, every other offset reads as before, and the length cell and
the extent of the buffer are unchanged. -/
theorem patch_known_descriptor (hdev : hid_device) (p : Ptr) (m : Machine)
    (hL : m.rsize = 193 ∨ m.rsize = 150 ∨ m.rsize = 89)
    (hlen : m.rdesc.length = m.rsize)
    (hb : m.rdesc[17]? = some 0x03) :
    (intercept_dasig_x_report hdev p m).1 = Except.ok p ∧
    (intercept_dasig_x_report hdev p m).2.rdesc[17]? = some 0x05 ∧
    (∀ i, i ≠ 17 → (intercept_dasig_x_report hdev p m).2.rdesc[i]? = m.rdesc[i]?) ∧
    (intercept_dasig_x_report hdev p m).2.rsize = m.rsize ∧
    (intercept_dasig_x_report hdev p m).2.rdesc.length = m.rsize := by
  have h17 : 17 < m.rdesc.length := by
    rw [hlen]; rcases hL with h | h | h <;> omega
  rw [intercept_patch hdev p m hL hb]
  refine ⟨rfl, getElem?_set_same _ _ h17, ?_, rfl, ?_⟩
  · intro i hi
    exact getElem?_set_other _ _ _ hi
  · simp [hlen]

/-- Witness for C1: the Bluetooth capture with its own length, as in
`test_fixup_patches_bluetooth_descriptor`. -/
theorem patch_known_descriptor_witness :
    ((89 : Nat) = 193 ∨ (89 : Nat) = 150 ∨ (89 : Nat) = 89) ∧
    dasig_x_bluetooth_rdesc.length = 89 ∧
    dasig_x_bluetooth_rdesc[17]? = some 0x03 ∧
    (intercept_dasig_x_report ⟨0x248A, 0x8266⟩ 4096
        ⟨dasig_x_bluetooth_rdesc, 89, [], []⟩).1 = Except.ok 4096 ∧
    (intercept_dasig_x_report ⟨0x248A, 0x8266⟩ 4096
        ⟨dasig_x_bluetooth_rdesc, 89, [], []⟩).2.rdesc[17]? = some 0x05 :=
  have h := patch_known_descriptor ⟨0x248A, 0x8266⟩ 4096
    ⟨dasig_x_bluetooth_rdesc, 89, [], []⟩ (by decide) (by rfl) (by rfl)
  ⟨by decide, by rfl, by rfl, h.1, h.2.1⟩

/-- C2: when the length is none of 193, 150 and 89, the call returns the pointer it
was given and leaves the whole machine as it was (buffer, length, log, and no
access to the buffer at all), whatever the buffer holds; this covers the 256-byte
buffer that starts with the wired descriptor, whose byte 17 stays 0x03. -/
theorem no_patch_unknown_size (hdev : hid_device) (p : Ptr) (m : Machine)
    (hL : m.rsize ≠ 193 ∧ m.rsize ≠ 150 ∧ m.rsize ≠ 89) :
    intercept_dasig_x_report hdev p m = (Except.ok p, m) ∧
    (larger_rdesc.length = 256 ∧ larger_rdesc.take 193 = dasig_x_original_rdesc ∧
      larger_rdesc[17]? = some 0x03 ∧
      intercept_dasig_x_report hdev p ⟨larger_rdesc, 256, m.log, m.trace⟩ =
        (Except.ok p, ⟨larger_rdesc, 256, m.log, m.trace⟩)) := by
  refine ⟨?_, by rfl, by rfl, by rfl, ?_⟩
  · apply intercept_size_mismatch
    rw [known_size_iff]
    omega
  · apply intercept_size_mismatch
    rw [known_size_iff]
    simp

/-- Witness for C2: a 100-byte length on the wired capture, as in
`test_no_fixup_wrong_size`. -/
theorem no_patch_unknown_size_witness :
    ((100 : Nat) ≠ 193 ∧ (100 : Nat) ≠ 150 ∧ (100 : Nat) ≠ 89) ∧
    intercept_dasig_x_report ⟨0, 0⟩ 4096 ⟨dasig_x_original_rdesc, 100, [], []⟩ =
      (Except.ok 4096, ⟨dasig_x_original_rdesc, 100, [], []⟩) :=
  ⟨by decide,
    (no_patch_unknown_size ⟨0, 0⟩ 4096 ⟨dasig_x_original_rdesc, 100, [], []⟩
      (by decide)).1⟩

/-- C3: when the length is 193, 150 or 89, the descriptor object has exactly that
many bytes and byte 17 is anything but 0x03, the call returns the pointer it was
given and the buffer, the length and the log are what they were before. -/
theorem no_patch_other_value (hdev : hid_device) (p : Ptr) (m : Machine)
    (hL : m.rsize = 193 ∨ m.rsize = 150 ∨ m.rsize = 89)
    (hlen : m.rdesc.length = m.rsize)
    (hb : m.rdesc[17]? ≠ some 0x03) :
    (intercept_dasig_x_report hdev p m).1 = Except.ok p ∧
    (intercept_dasig_x_report hdev p m).2.rdesc = m.rdesc ∧
    (intercept_dasig_x_report hdev p m).2.rsize = m.rsize ∧
    (intercept_dasig_x_report hdev p m).2.log = m.log := by
  have h17 : 17 < m.rdesc.length := by
    rw [hlen]; rcases hL with h | h | h <;> omega
  have hsome : m.rdesc[17]? = some (m.rdesc.get ⟨17, h17⟩) := by
    simp [List.getElem?_eq_getElem, h17]
  have hne : m.rdesc.get ⟨17, h17⟩ ≠ 3 := by
    intro h3
    apply hb
    rw [hsome, h3]
  rw [intercept_other_byte hdev p m _ hL hsome hne]
  exact ⟨rfl, rfl, rfl, rfl⟩

/-- Witness for C3: the wired capture with byte 17 replaced by 0x08, as in
`test_no_fixup_unexpected_byte_value`. -/
theorem no_patch_other_value_witness :
    (dasig_x_original_rdesc.set 17 0x08)[17]? ≠ some 0x03 ∧
    (intercept_dasig_x_report ⟨0, 0⟩ 4096
        ⟨dasig_x_original_rdesc.set 17 0x08, 193, [], []⟩).2.rdesc =
      dasig_x_original_rdesc.set 17 0x08 :=
  ⟨by decide,
    (no_patch_other_value ⟨0, 0⟩ 4096 ⟨dasig_x_original_rdesc.set 17 0x08, 193, [], []⟩
      (by decide) (by rfl) (by decide)).2.1⟩

/-- C4: two calls in a row end with the same return value, buffer, length and log as
one call (a call that faults does so in both), and a call on a buffer whose byte 17
is already 0x05 returns the pointer and changes neither buffer, length nor log, for
every length. -/
theorem intercept_idempotent (hdev : hid_device) (p : Ptr) (m : Machine) :
    ((intercept_twice hdev p m).1 = (intercept_dasig_x_report hdev p m).1 ∧
      (intercept_twice hdev p m).2.rdesc = (intercept_dasig_x_report hdev p m).2.rdesc ∧
      (intercept_twice hdev p m).2.rsize = (intercept_dasig_x_report hdev p m).2.rsize ∧
      (intercept_twice hdev p m).2.log = (intercept_dasig_x_report hdev p m).2.log) ∧
    (m.rdesc[17]? = some 0x05 →
      (intercept_dasig_x_report hdev p m).1 = Except.ok p ∧
      (intercept_dasig_x_report hdev p m).2.rdesc = m.rdesc ∧
      (intercept_dasig_x_report hdev p m).2.rsize = m.rsize ∧
      (intercept_dasig_x_report hdev p m).2.log = m.log) := by
  constructor
  · rcases intercept_cases hdev p m with ⟨hk, hf⟩ | ⟨hk, hb, hf⟩ | ⟨hk, ⟨b, hb, hne⟩, hf⟩ |
      ⟨hk, hb, hf⟩
    · simp [intercept_twice, hf]
    · simp [intercept_twice, hf]
    · have h2 := intercept_other_byte hdev p
        { m with trace := m.trace ++ [MemOp.load 17] } b hk hb hne
      simp [intercept_twice, hf, h2]
    · have h17 : 17 < m.rdesc.length := (List.getElem?_eq_some_iff.mp hb).1
      have h2 := intercept_other_byte hdev p
        { rdesc := m.rdesc.set 17 5
          rsize := m.rsize
          log := m.log ++ [(hdev, intercept_message)]
          trace := m.trace ++ [MemOp.load 17, MemOp.store 17 5] } 5 hk
        (getElem?_set_same _ _ h17) (by decide)
      simp [intercept_twice, hf, h2]
  · intro h5
    rcases intercept_cases hdev p m with ⟨hk, hf⟩ | ⟨hk, hb, hf⟩ | ⟨hk, ⟨b, hb, hne⟩, hf⟩ |
      ⟨hk, hb, hf⟩
    · simp [hf]
    · rw [h5] at hb; cases hb
    · simp [hf]
    · rw [h5] at hb; cases hb

/-- Witness for C4: the wired capture with byte 17 already 0x05, as in
`test_no_fixup_already_patched`. -/
theorem intercept_idempotent_witness :
    (dasig_x_original_rdesc.set 17 0x05)[17]? = some 0x05 ∧
    (intercept_dasig_x_report ⟨0, 0⟩ 4096
        ⟨dasig_x_original_rdesc.set 17 0x05, 193, [], []⟩).2.rdesc =
      dasig_x_original_rdesc.set 17 0x05 :=
  ⟨by rfl,
    ((intercept_idempotent ⟨0, 0⟩ 4096
      ⟨dasig_x_original_rdesc.set 17 0x05, 193, [], []⟩).2 (by rfl)).2.1⟩

/-- C5: on every input, every offset other than 17 reads after the call what it read
before it (on all four paths, the faulting one included), and every access the call
makes to the buffer is at offset 17. -/
theorem only_offset_17_touched (hdev : hid_device) (p : Ptr) (m : Machine) (i : Nat)
    (hi : i ≠ 17) :
    (intercept_dasig_x_report hdev p m).2.rdesc[i]? = m.rdesc[i]? ∧
    ∃ ops, (intercept_dasig_x_report hdev p m).2.trace = m.trace ++ ops ∧
      ∀ op ∈ ops, MemOp.off op = 17 := by
  rcases intercept_cases hdev p m with ⟨_, hf⟩ | ⟨_, _, hf⟩ | ⟨_, _, hf⟩ | ⟨_, _, hf⟩
  · rw [hf]
    exact ⟨rfl, [], by simp, by simp⟩
  · rw [hf]
    exact ⟨rfl, [MemOp.load 17], rfl, by simp [MemOp.off]⟩
  · rw [hf]
    exact ⟨rfl, [MemOp.load 17], rfl, by simp [MemOp.off]⟩
  · rw [hf]
    exact ⟨getElem?_set_other _ _ _ hi, [MemOp.load 17, MemOp.store 17 5], rfl,
      by simp [MemOp.off]⟩

/-- Witness for C5: offset 112 of the wired capture (the later `29 03` pair) still
reads 0x03 after the patch. -/
theorem only_offset_17_touched_witness :
    (112 : Nat) ≠ 17 ∧
    (intercept_dasig_x_report ⟨0, 0⟩ 4096
        ⟨dasig_x_original_rdesc, 193, [], []⟩).2.rdesc[112]? =
      dasig_x_original_rdesc[112]? :=
  ⟨by decide,
    (only_offset_17_touched ⟨0, 0⟩ 4096 ⟨dasig_x_original_rdesc, 193, [], []⟩ 112
      (by decide)).1⟩

/-- C6: when the descriptor object holds at least as many bytes as the length cell
says, the call does not fault and returns the pointer; it accesses the buffer only
when the length is 193, 150 or 89, every access is at offset 17, and 17 is then
below the length and inside the object.  For a length below 89 (zero and lengths
under 18 included) nothing at all changes. -/
theorem no_out_of_bounds (hdev : hid_device) (p : Ptr) (m : Machine)
    (hroom : m.rsize ≤ m.rdesc.length) :
    (intercept_dasig_x_report hdev p m).1 = Except.ok p ∧
    (∃ ops, (intercept_dasig_x_report hdev p m).2.trace = m.trace ++ ops ∧
      (ops ≠ [] → m.rsize = 193 ∨ m.rsize = 150 ∨ m.rsize = 89) ∧
      ∀ op ∈ ops, MemOp.off op = 17 ∧ MemOp.off op < m.rsize ∧
        MemOp.off op < m.rdesc.length) ∧
    (m.rsize < 89 → intercept_dasig_x_report hdev p m = (Except.ok p, m)) := by
  have hin : known_size m.rsize → 17 < m.rsize := by
    intro hk
    rw [known_size_iff] at hk
    omega
  have hacc : known_size m.rsize → 17 < m.rdesc.length := fun hk =>
    Nat.lt_of_lt_of_le (hin hk) hroom
  refine ⟨?_, ?_, ?_⟩
  · rcases intercept_cases hdev p m with ⟨_, hf⟩ | ⟨hk, hb, hf⟩ | ⟨_, _, hf⟩ | ⟨_, _, hf⟩
    · rw [hf]
    · have := hin hk
      rw [List.getElem?_eq_none_iff] at hb
      omega
    · rw [hf]
    · rw [hf]
  · rcases intercept_cases hdev p m with ⟨_, hf⟩ | ⟨hk, _, hf⟩ | ⟨hk, _, hf⟩ | ⟨hk, _, hf⟩
    · rw [hf]
      exact ⟨[], by simp, by simp, by simp⟩
    · rw [hf]
      refine ⟨[MemOp.load 17], rfl, fun _ => hk, ?_⟩
      intro op hop
      simp at hop
      subst hop
      exact ⟨rfl, hin hk, hacc hk⟩
    · rw [hf]
      refine ⟨[MemOp.load 17], rfl, fun _ => hk, ?_⟩
      intro op hop
      simp at hop
      subst hop
      exact ⟨rfl, hin hk, hacc hk⟩
    · rw [hf]
      refine ⟨[MemOp.load 17, MemOp.store 17 5], rfl, fun _ => hk, ?_⟩
      intro op hop
      simp at hop
      rcases hop with hop | hop <;> subst hop <;> exact ⟨rfl, hin hk, hacc hk⟩
  · intro hlt
    apply intercept_size_mismatch
    rw [known_size_iff]
    omega

/-- Witness for C6: the ten-byte descriptor of `test_no_fixup_small_descriptor`. -/
theorem no_out_of_bounds_witness :
    (10 : Nat) ≤ [0x05, 0x01, 0x09, 0x02, 0xa1, 0x01, 0x85, 0x01, 0x09, 0x01].length ∧
    (intercept_dasig_x_report ⟨0, 0⟩ 4096
        ⟨[0x05, 0x01, 0x09, 0x02, 0xa1, 0x01, 0x85, 0x01, 0x09, 0x01], 10, [], []⟩).1 =
      Except.ok 4096 :=
  ⟨by decide,
    (no_out_of_bounds ⟨0, 0⟩ 4096
      ⟨[0x05, 0x01, 0x09, 0x02, 0xa1, 0x01, 0x85, 0x01, 0x09, 0x01], 10, [], []⟩
      (by decide)).1⟩

/-- C7, as stated, fails: with buffer and length taken as independent arguments, a
one-byte buffer passed with length 193 makes the call load offset 17 outside the
buffer, so not every call returns the pointer. -/
theorem not_total_on_independent_arguments :
    (intercept_dasig_x_report ⟨0, 0⟩ 4096 ⟨[0], 193, [], []⟩).1 =
      Except.error (Fault.out_of_bounds 17) ∧
    ¬ (∀ (hdev : hid_device) (p : Ptr) (m : Machine),
        (intercept_dasig_x_report hdev p m).1 = Except.ok p) := by
  refine ⟨by rfl, ?_⟩
  intro h
  have h1 := h ⟨0, 0⟩ 4096 ⟨[0], 193, [], []⟩
  have h2 : (intercept_dasig_x_report ⟨0, 0⟩ 4096 ⟨[0], 193, [], []⟩).1 =
      Except.error (Fault.out_of_bounds 17) := by rfl
  rw [h2] at h1
  cases h1

/-- C7, amended: for every buffer and length such that the buffer holds at least 18
bytes whenever the length is 193, 150 or 89 (so in particular whenever it holds as
many bytes as the length says), the call completes, returns the pointer it was
given and raises no fault. -/
theorem total_when_offset_17_exists (hdev : hid_device) (p : Ptr) (m : Machine)
    (hroom : (m.rsize = 193 ∨ m.rsize = 150 ∨ m.rsize = 89) → 17 < m.rdesc.length) :
    (intercept_dasig_x_report hdev p m).1 = Except.ok p ∧
    ∀ e, (intercept_dasig_x_report hdev p m).1 ≠ Except.error e := by
  have hok : (intercept_dasig_x_report hdev p m).1 = Except.ok p := by
    rcases intercept_cases hdev p m with ⟨_, hf⟩ | ⟨hk, hb, hf⟩ | ⟨_, _, hf⟩ | ⟨_, _, hf⟩
    · rw [hf]
    · have := hroom hk
      rw [List.getElem?_eq_none_iff] at hb
      omega
    · rw [hf]
    · rw [hf]
  refine ⟨hok, ?_⟩
  intro e he
  rw [hok] at he
  cases he

/-- Witness for the amended C7: the one-byte buffer passed with length 0, as in
`test_no_fixup_zero_size`. -/
theorem total_when_offset_17_exists_witness :
    (((0 : Nat) = 193 ∨ (0 : Nat) = 150 ∨ (0 : Nat) = 89) → 17 < [0].length) ∧
    (intercept_dasig_x_report ⟨0, 0⟩ 4096 ⟨[0], 0, [], []⟩).1 = Except.ok 4096 :=
  ⟨by decide,
    (total_when_offset_17_exists ⟨0, 0⟩ 4096 ⟨[0], 0, [], []⟩ (by decide)).1⟩

/-- C8: on every path the length cell after the call holds what it held before, and
the descriptor buffer has as many bytes as before. -/
theorem length_never_changes (hdev : hid_device) (p : Ptr) (m : Machine) :
    (intercept_dasig_x_report hdev p m).2.rsize = m.rsize ∧
    (intercept_dasig_x_report hdev p m).2.rdesc.length = m.rdesc.length := by
  rcases intercept_cases hdev p m with ⟨_, hf⟩ | ⟨_, _, hf⟩ | ⟨_, _, hf⟩ | ⟨_, _, hf⟩ <;>
    rw [hf] <;> simp

/-- C9: a call appends exactly one line to the log, the driver's message attributed
to the device, when the length is 193, 150 or 89 and byte 17 is 0x03, and appends
nothing in every other case. -/
theorem one_log_line_iff_patched (hdev : hid_device) (p : Ptr) (m : Machine) :
    (intercept_dasig_x_report hdev p m).2.log =
      m.log ++ (if (m.rsize = 193 ∨ m.rsize = 150 ∨ m.rsize = 89) ∧
          m.rdesc[17]? = some 0x03 then [(hdev, intercept_message)] else []) ∧
    (intercept_dasig_x_report hdev p m).2.log.length =
      m.log.length + (if (m.rsize = 193 ∨ m.rsize = 150 ∨ m.rsize = 89) ∧
          m.rdesc[17]? = some 0x03 then 1 else 0) := by
  rcases intercept_cases hdev p m with ⟨hk, hf⟩ | ⟨hk, hb, hf⟩ | ⟨hk, ⟨b, hb, hne⟩, hf⟩ |
      ⟨hk, hb, hf⟩
  · rw [known_size_iff] at hk
    rw [hf]
    simp [hk]
  · rw [hf]
    simp [hb]
  · rw [hf]
    simp [hb, hne]
  · rw [known_size_iff] at hk
    rw [hf]
    simp [hk, hb]

/-- C10: two calls that differ only in the device handle give the same return value,
the same buffer, the same length, the same accesses, the same number of log lines
and the same log texts; the handle shows up only as the attribution of the line. -/
theorem handle_only_attributes_log (h1 h2 : hid_device) (p : Ptr) (m : Machine) :
    (intercept_dasig_x_report h1 p m).1 = (intercept_dasig_x_report h2 p m).1 ∧
    (intercept_dasig_x_report h1 p m).2.rdesc = (intercept_dasig_x_report h2 p m).2.rdesc ∧
    (intercept_dasig_x_report h1 p m).2.rsize = (intercept_dasig_x_report h2 p m).2.rsize ∧
    (intercept_dasig_x_report h1 p m).2.trace = (intercept_dasig_x_report h2 p m).2.trace ∧
    (intercept_dasig_x_report h1 p m).2.log.length =
      (intercept_dasig_x_report h2 p m).2.log.length ∧
    (intercept_dasig_x_report h1 p m).2.log.map Prod.snd =
      (intercept_dasig_x_report h2 p m).2.log.map Prod.snd := by
  by_cases hk : known_size m.rsize
  · cases hb : m.rdesc[17]? with
    | none =>
      rw [intercept_fault h1 p m hk hb, intercept_fault h2 p m hk hb]
      simp
    | some b =>
      by_cases h3 : b = 3
      · subst h3
        rw [intercept_patch h1 p m hk hb, intercept_patch h2 p m hk hb]
        simp
      · rw [intercept_other_byte h1 p m b hk hb h3, intercept_other_byte h2 p m b hk hb h3]
        simp
  · rw [intercept_size_mismatch h1 p m hk, intercept_size_mismatch h2 p m hk]
    simp

/-! ## The captured descriptors, the device table, and the copy in the tests -/

/-- C11: on each of the three captures, called with the capture's own length, the
fixup returns the pointer, byte 17 goes from 0x03 to 0x05, and the bytes before
and after offset 17 are those of the capture.  For the wired capture bytes 0..17
become `05 01 09 02 a1 01 85 01 09 01 a1 00 05 09 19 01 29 05`, the 175 bytes
from offset 18 on are unchanged, offsets 111 and 112 still hold `29 03`, and the
length cell still holds 193. -/
theorem captured_descriptors_patched (hdev : hid_device) (p : Ptr)
    (log : List (hid_device × String)) (tr : List MemOp) :
    (dasig_x_original_rdesc[17]? = some 0x03 ∧
      (intercept_dasig_x_report hdev p ⟨dasig_x_original_rdesc, 193, log, tr⟩).1 =
        Except.ok p ∧
      (intercept_dasig_x_report hdev p ⟨dasig_x_original_rdesc, 193, log, tr⟩).2.rdesc[17]? =
        some 0x05 ∧
      (intercept_dasig_x_report hdev p ⟨dasig_x_original_rdesc, 193, log, tr⟩).2.rdesc.take 17 =
        dasig_x_original_rdesc.take 17 ∧
      (intercept_dasig_x_report hdev p ⟨dasig_x_original_rdesc, 193, log, tr⟩).2.rdesc.drop 18 =
        dasig_x_original_rdesc.drop 18 ∧
      (intercept_dasig_x_report hdev p ⟨dasig_x_original_rdesc, 193, log, tr⟩).2.rdesc.take 18 =
        [0x05, 0x01, 0x09, 0x02, 0xa1, 0x01, 0x85, 0x01, 0x09, 0x01, 0xa1, 0x00,
         0x05, 0x09, 0x19, 0x01, 0x29, 0x05] ∧
      ((intercept_dasig_x_report hdev p
          ⟨dasig_x_original_rdesc, 193, log, tr⟩).2.rdesc.drop 18).length = 175 ∧
      (intercept_dasig_x_report hdev p ⟨dasig_x_original_rdesc, 193, log, tr⟩).2.rdesc[111]? =
        some 0x29 ∧
      (intercept_dasig_x_report hdev p ⟨dasig_x_original_rdesc, 193, log, tr⟩).2.rdesc[112]? =
        some 0x03 ∧
      (intercept_dasig_x_report hdev p ⟨dasig_x_original_rdesc, 193, log, tr⟩).2.rsize =
        193) ∧
    (dasig_x_dongle_rdesc[17]? = some 0x03 ∧
      (intercept_dasig_x_report hdev p ⟨dasig_x_dongle_rdesc, 150, log, tr⟩).1 =
        Except.ok p ∧
      (intercept_dasig_x_report hdev p ⟨dasig_x_dongle_rdesc, 150, log, tr⟩).2.rdesc[17]? =
        some 0x05 ∧
      (intercept_dasig_x_report hdev p ⟨dasig_x_dongle_rdesc, 150, log, tr⟩).2.rdesc.take 17 =
        dasig_x_dongle_rdesc.take 17 ∧
      (intercept_dasig_x_report hdev p ⟨dasig_x_dongle_rdesc, 150, log, tr⟩).2.rdesc.drop 18 =
        dasig_x_dongle_rdesc.drop 18 ∧
      (intercept_dasig_x_report hdev p ⟨dasig_x_dongle_rdesc, 150, log, tr⟩).2.rdesc.length =
        150) ∧
    (dasig_x_bluetooth_rdesc[17]? = some 0x03 ∧
      (intercept_dasig_x_report hdev p ⟨dasig_x_bluetooth_rdesc, 89, log, tr⟩).1 =
        Except.ok p ∧
      (intercept_dasig_x_report hdev p ⟨dasig_x_bluetooth_rdesc, 89, log, tr⟩).2.rdesc[17]? =
        some 0x05 ∧
      (intercept_dasig_x_report hdev p ⟨dasig_x_bluetooth_rdesc, 89, log, tr⟩).2.rdesc.take 17 =
        dasig_x_bluetooth_rdesc.take 17 ∧
      (intercept_dasig_x_report hdev p ⟨dasig_x_bluetooth_rdesc, 89, log, tr⟩).2.rdesc.drop 18 =
        dasig_x_bluetooth_rdesc.drop 18 ∧
      (intercept_dasig_x_report hdev p ⟨dasig_x_bluetooth_rdesc, 89, log, tr⟩).2.rdesc.length =
        89) := by
  have hw := intercept_patch hdev p ⟨dasig_x_original_rdesc, 193, log, tr⟩
    (Or.inl rfl) (by rfl)
  have hd := intercept_patch hdev p ⟨dasig_x_dongle_rdesc, 150, log, tr⟩
    (Or.inr (Or.inl rfl)) (by rfl)
  have hb := intercept_patch hdev p ⟨dasig_x_bluetooth_rdesc, 89, log, tr⟩
    (Or.inr (Or.inr rfl)) (by rfl)
  rw [hw, hd, hb]
  exact ⟨⟨by rfl, rfl, by rfl, by rfl, by rfl, by rfl, by rfl, by rfl, by rfl, rfl⟩,
    ⟨by rfl, rfl, by rfl, by rfl, by rfl, by rfl⟩,
    ⟨by rfl, rfl, by rfl, by rfl, by rfl, by rfl⟩⟩

/-- C12: the device table is the direct-USB identity 0x248A:0xFB01, the dongle
identity 0x248A:0xFA02 (both on the USB bus), the Bluetooth identity
0x248A:0x8266, and then the empty terminator and nothing else; the identities it
binds are exactly those three; and the driver registers this table with
`intercept_dasig_x_report` as its `report_fixup`. -/
theorem rakk_devices_binds_three :
    rakk_devices =
      [{ bus := BUS_USB, vendor := 0x248A, product := 0xFB01 },
       { bus := BUS_USB, vendor := 0x248A, product := 0xFA02 },
       { bus := BUS_BLUETOOTH, vendor := 0x248A, product := 0x8266 },
       empty_device_id] ∧
    bound_identities rakk_devices =
      [{ bus := BUS_USB, vendor := 0x248A, product := 0xFB01 },
       { bus := BUS_USB, vendor := 0x248A, product := 0xFA02 },
       { bus := BUS_BLUETOOTH, vendor := 0x248A, product := 0x8266 }] ∧
    (bound_identities rakk_devices).length = 3 ∧
    (bound_identities rakk_devices).map (fun e => e.vendor) = [0x248A, 0x248A, 0x248A] ∧
    rakk_devices.drop 3 = [empty_device_id] ∧
    BUS_USB ≠ BUS_BLUETOOTH ∧
    dasig_x_driver.id_table = rakk_devices ∧
    dasig_x_driver.report_fixup = intercept_dasig_x_report := by
  refine ⟨by rfl, by decide, by decide, by decide, by rfl, by decide, rfl, rfl⟩

/-- C13: when the length is 193, 150 or 89 and the descriptor object holds at least
that many bytes, the buffer has a byte at offset 17 after the call, that byte is
not 0x03, and it is 0x05 or the byte that was there before. -/
theorem fault_signature_removed (hdev : hid_device) (p : Ptr) (m : Machine)
    (hL : m.rsize = 193 ∨ m.rsize = 150 ∨ m.rsize = 89)
    (hroom : m.rsize ≤ m.rdesc.length) :
    (∃ b, (intercept_dasig_x_report hdev p m).2.rdesc[17]? = some b) ∧
    (intercept_dasig_x_report hdev p m).2.rdesc[17]? ≠ some 0x03 ∧
    ((intercept_dasig_x_report hdev p m).2.rdesc[17]? = some 0x05 ∨
      (intercept_dasig_x_report hdev p m).2.rdesc[17]? = m.rdesc[17]?) := by
  have h17 : 17 < m.rdesc.length := by
    rcases hL with h | h | h <;> omega
  rcases intercept_cases hdev p m with ⟨hk, _⟩ | ⟨_, hb, _⟩ | ⟨_, ⟨b, hb, hne⟩, hf⟩ |
      ⟨_, _, hf⟩
  · exact absurd hL hk
  · rw [List.getElem?_eq_none_iff] at hb
    omega
  · rw [hf]
    refine ⟨⟨b, hb⟩, ?_, Or.inr rfl⟩
    show m.rdesc[17]? ≠ some 3
    rw [hb]
    intro h
    exact hne (Option.some.inj h)
  · rw [hf]
    have hs : (m.rdesc.set 17 5)[17]? = some 5 := getElem?_set_same _ _ h17
    refine ⟨⟨5, hs⟩, ?_, Or.inl hs⟩
    show (m.rdesc.set 17 5)[17]? ≠ some 3
    rw [hs]
    decide

/-- Witness for C13: the dongle capture with its own length, as in
`test_fixup_patches_dongle_descriptor`. -/
theorem fault_signature_removed_witness :
    ((150 : Nat) = 193 ∨ (150 : Nat) = 150 ∨ (150 : Nat) = 89) ∧
    (150 : Nat) ≤ dasig_x_dongle_rdesc.length ∧
    (intercept_dasig_x_report ⟨0x248A, 0xFA02⟩ 4096
        ⟨dasig_x_dongle_rdesc, 150, [], []⟩).2.rdesc[17]? ≠ some 0x03 :=
  ⟨by decide, by decide,
    (fault_signature_removed ⟨0x248A, 0xFA02⟩ 4096 ⟨dasig_x_dongle_rdesc, 150, [], []⟩
      (by decide) (by decide)).2.1⟩

/-- C14: the six constants of the test file equal the driver's; on every handle,
buffer and length the function the tests call gives the same return value, the same
buffer, the same length and the same accesses as the driver's function; and it
reaches its `hid_info` exactly where the driver does, since with the kernel's
`hid_info` put in place of the mock the two functions agree on the whole machine,
log included.  Under the mock itself the log is left as it was. -/
theorem test_copy_equivalent (hdev : hid_device) (p : Ptr) (m : Machine) :
    (Test.RAKK_DASIG_X_RDESC_ORIG_SIZE = RAKK_DASIG_X_RDESC_ORIG_SIZE ∧
      Test.RAKK_DASIG_X_DONGLE_RDESC_ORIG_SIZE = RAKK_DASIG_X_DONGLE_RDESC_ORIG_SIZE ∧
      Test.RAKK_DASIG_X_BLUETOOTH_RDESC_ORIG_SIZE = RAKK_DASIG_X_BLUETOOTH_RDESC_ORIG_SIZE ∧
      Test.RAKK_DASIG_X_USAGE_MAX_OFFSET = RAKK_DASIG_X_USAGE_MAX_OFFSET ∧
      Test.RAKK_DASIG_X_USAGE_MAX_ORIG_VALUE = RAKK_DASIG_X_USAGE_MAX_ORIG_VALUE ∧
      Test.RAKK_DASIG_X_USAGE_MAX_FIXED_VALUE = RAKK_DASIG_X_USAGE_MAX_FIXED_VALUE) ∧
    (Test.intercept_dasig_x_report hdev p m).1 = (intercept_dasig_x_report hdev p m).1 ∧
    (Test.intercept_dasig_x_report hdev p m).2.rdesc =
      (intercept_dasig_x_report hdev p m).2.rdesc ∧
    (Test.intercept_dasig_x_report hdev p m).2.rsize =
      (intercept_dasig_x_report hdev p m).2.rsize ∧
    (Test.intercept_dasig_x_report hdev p m).2.trace =
      (intercept_dasig_x_report hdev p m).2.trace ∧
    Test.intercept_dasig_x_report_with hid_info hdev p m =
      intercept_dasig_x_report hdev p m ∧
    (Test.intercept_dasig_x_report hdev p m).2.log = m.log := by
  refine ⟨⟨rfl, rfl, rfl, rfl, rfl, rfl⟩, ?_, ?_, ?_, ?_, rfl, ?_⟩ <;>
    rw [test_copy_eq hdev p m]

end RakkDasigX
